import Mathlib

/-!
Verification development for the `ecologits` impact-computation engine.

The two source files under scrutiny are `ecologits/impacts/llm.py` (formula
nodes, DAG assembly, uncertainty orchestration) and
`ecologits/electricity_mix_repository.py` (CSV-backed electricity-mix lookup).
Numeric values are embedded as exact rationals (`ℚ`); Python `float` literals
are translated to their exact decimal rationals.  Fallible Python code
(dictionary subscription, unbound locals, `float` parsing) is embedded with
`Except String`, where the error string names the Python exception class that
the corresponding operation raises.
-/

deriving instance DecidableEq for Except

namespace EcoLogits

/-- Modelled from the spec: the `RangeValue` class lives in
`ecologits/utils/range_value.py`, which is not among the given source files.
Per spec §3, a bounded value is a tagged union of a scalar or an
interval `(min, max)`; `ValueOrRange = Union[float, RangeValue]`. -/
inductive ValueOrRange where
  | val (x : ℚ)
  | range (lo hi : ℚ)
deriving DecidableEq

namespace ValueOrRange

/-- The lower end of a bounded value (a scalar is its own lower end). -/
def vmin : ValueOrRange → ℚ
  | .val x => x
  | .range lo _ => lo

/-- The upper end of a bounded value (a scalar is its own upper end). -/
def vmax : ValueOrRange → ℚ
  | .val x => x
  | .range _ hi => hi

/-- Whether the bounded value is an interval rather than a scalar. -/
def isRange : ValueOrRange → Bool
  | .val _ => false
  | .range _ _ => true

/-- Modelled from the spec: addition of bounded values (§3): scalar∘scalar
gives a scalar, a scalar broadcasts over both bounds of an interval, and two
intervals combine elementwise (min with min, max with max). -/
def add : ValueOrRange → ValueOrRange → ValueOrRange
  | .val a, .val b => .val (a + b)
  | .val a, .range lo hi => .range (a + lo) (a + hi)
  | .range lo hi, .val b => .range (lo + b) (hi + b)
  | .range a b, .range c d => .range (a + c) (b + d)

/-- Modelled from the spec: left multiplication of a bounded value by a plain
scalar, broadcast over both bounds (§3). -/
def scale (c : ℚ) : ValueOrRange → ValueOrRange
  | .val x => .val (c * x)
  | .range lo hi => .range (c * lo) (c * hi)

/-- Modelled from the spec: right multiplication of a bounded value by a plain
scalar, broadcast over both bounds (§3). -/
def mulc : ValueOrRange → ℚ → ValueOrRange
  | .val x, c => .val (x * c)
  | .range lo hi, c => .range (lo * c) (hi * c)

/-- Modelled from the spec: division of a bounded value by a plain scalar,
broadcast over both bounds (§3). -/
def divc : ValueOrRange → ℚ → ValueOrRange
  | .val x, c => .val (x / c)
  | .range lo hi, c => .range (lo / c) (hi / c)

/-- Modelled from the spec: comparison of a bounded value against a scalar
threshold (§3): `boundedValue < threshold` holds iff
`max(boundedValue) < threshold`. -/
def ltScalar (v : ValueOrRange) (t : ℚ) : Prop :=
  v.vmax < t

instance (v : ValueOrRange) (t : ℚ) : Decidable (v.ltScalar t) :=
  inferInstanceAs (Decidable (v.vmax < t))

end ValueOrRange

/-! Constants of `ecologits/impacts/llm.py`, as exact rationals. -/

def MODEL_QUANTIZATION_BITS : ℚ := 4

def GPU_ENERGY_ALPHA : ℚ := 891 / 10 ^ 10      -- 8.91e-8
def GPU_ENERGY_BETA : ℚ := 143 / 10 ^ 8        -- 1.43e-6
def GPU_ENERGY_STDEV : ℚ := 519 / 10 ^ 9       -- 5.19e-7
def GPU_LATENCY_ALPHA : ℚ := 802 / 10 ^ 6      -- 8.02e-4
def GPU_LATENCY_BETA : ℚ := 223 / 10 ^ 4       -- 2.23e-2
def GPU_LATENCY_STDEV : ℚ := 7 / 10 ^ 6        -- 7.00e-6

def GPU_MEMORY : ℚ := 80
def GPU_EMBODIED_IMPACT_GWP : ℚ := 143
def GPU_EMBODIED_IMPACT_ADPE : ℚ := 51 / 10 ^ 4   -- 5.1e-3
def GPU_EMBODIED_IMPACT_PE : ℚ := 1828

def SERVER_GPUS : ℚ := 8
def SERVER_POWER : ℚ := 1
def SERVER_EMBODIED_IMPACT_GWP : ℚ := 3000
def SERVER_EMBODIED_IMPACT_ADPE : ℚ := 24 / 100
def SERVER_EMBODIED_IMPACT_PE : ℚ := 38000

def HARDWARE_LIFESPAN : ℚ := 5 * 365 * 24 * 60 * 60

def BATCHING_SIZE : ℚ := 16
def GPUS_IN_SERVER : ℚ := 8
def WATER_FABRICATING_GPU : ℚ := 56178343949 / 10 ^ 11   -- 0.56178343949

/-- The `PROVIDER_WUE_ONSITE` dictionary, as a partial lookup: a key miss in
Python raises `KeyError`, modelled at use sites on the `none` branch. -/
def PROVIDER_WUE_ONSITE : String → Option ℚ := fun s =>
  if s = "Google" then some (916 / 1000)
  else if s = "Meta" then some (18 / 100)
  else if s = "Microsoft" then some (49 / 100)
  else if s = "OVHCloud" then some (37 / 100)
  else if s = "Scaleway" then some (216 / 1000)
  else if s = "AWS" then some (18 / 100)
  else if s = "Equinix" then some (107 / 100)
  else none

/-- The `PROVIDER_PUE` dictionary. -/
def PROVIDER_PUE : String → Option ℚ := fun s =>
  if s = "Google" then some (109 / 100)
  else if s = "Meta" then some (109 / 100)
  else if s = "Microsoft" then some (118 / 100)
  else if s = "OVHCloud" then some (126 / 100)
  else if s = "Scaleway" then some (137 / 100)
  else if s = "AWS" then some (115 / 100)
  else if s = "Equinix" then some (142 / 100)
  else none

/-- The `AI_COMPANY_TO_DATA_CENTER_PROVIDER` dictionary. -/
def AI_COMPANY_TO_DATA_CENTER_PROVIDER : String → Option String := fun s =>
  if s = "anthropic" then some "Google"
  else if s = "mistralai" then some "OVHCloud"
  else if s = "cohere" then some "AWS"
  else if s = "databricks" then some "Microsoft"
  else if s = "meta" then some "Meta"
  else if s = "azureopenai" then some "Microsoft"
  else if s = "huggingface_hub" then some "AWS"
  else if s = "google" then some "Google"
  else if s = "microsoft" then some "Microsoft"
  else if s = "openai" then some "Microsoft"
  else if s = "litellm" then some "AWS"
  else none

/-! Formula nodes of `ecologits/impacts/llm.py`. -/

/-- `gpu_energy` (llm.py lines 93-117): the ±1.96σ band of the per-token
linear energy model, lower bound floored at 0. -/
def gpu_energy (model_active_parameter_count output_token_count
    gpu_energy_alpha gpu_energy_beta gpu_energy_stdev : ℚ) : ValueOrRange :=
  let gpu_energy_per_token_mean :=
    gpu_energy_alpha * model_active_parameter_count + gpu_energy_beta
  let gpu_energy_min :=
    output_token_count * (gpu_energy_per_token_mean - 196 / 100 * gpu_energy_stdev)
  let gpu_energy_max :=
    output_token_count * (gpu_energy_per_token_mean + 196 / 100 * gpu_energy_stdev)
  .range (max 0 gpu_energy_min) gpu_energy_max

/-- `generation_latency` (llm.py lines 119-148): the ±1.96σ latency band,
floored at 0, clamped to the measured `request_latency` via the
interval-below-scalar comparison.  `request_latency = none` models the
`math.inf` default (no ceiling: the comparison `max < inf` always holds). -/
def generation_latency (model_active_parameter_count output_token_count
    gpu_latency_alpha gpu_latency_beta gpu_latency_stdev : ℚ)
    (request_latency : Option ℚ) : ValueOrRange :=
  let gpu_latency_per_token_mean :=
    gpu_latency_alpha * model_active_parameter_count + gpu_latency_beta
  let gpu_latency_min :=
    output_token_count * (gpu_latency_per_token_mean - 196 / 100 * gpu_latency_stdev)
  let gpu_latency_max :=
    output_token_count * (gpu_latency_per_token_mean + 196 / 100 * gpu_latency_stdev)
  let gpu_latency_interval : ValueOrRange :=
    .range (max 0 gpu_latency_min) gpu_latency_max
  match request_latency with
  | none => gpu_latency_interval
  | some t => if gpu_latency_interval.ltScalar t then gpu_latency_interval else .val t

/-- `model_required_memory` (llm.py lines 150-165). -/
def model_required_memory (model_total_parameter_count model_quantization_bits : ℚ) : ℚ :=
  12 / 10 * model_total_parameter_count * model_quantization_bits / 8

/-- `gpu_required_count` (llm.py lines 168-183): `ceil(mem / gpu_memory)`. -/
def gpu_required_count (mem gpu_memory : ℚ) : ℤ :=
  ⌈mem / gpu_memory⌉

/-- `server_energy` (llm.py lines 186-205):
`(generation_latency / 3600) * server_power * (gpu_required_count / server_gpu_count)`.
The latency may be a bounded value, so the arithmetic broadcasts. -/
def server_energy (gl : ValueOrRange)
    (server_power server_gpu_count gpu_count : ℚ) : ValueOrRange :=
  ((gl.divc 3600).mulc server_power).mulc (gpu_count / server_gpu_count)

/-- `request_energy` (llm.py lines 208-233):
`provider_pue[map[provider]] * (server_energy + gpu_required_count * gpu_energy)`.
A missing dictionary key raises `KeyError` in Python. -/
def request_energy (provider : String)
    (provider_pue : String → Option ℚ)
    (ai_company_to_data_center_provider : String → Option String)
    (se : ValueOrRange) (gpu_count : ℚ) (ge : ValueOrRange) :
    Except String ValueOrRange :=
  match ai_company_to_data_center_provider provider with
  | none => .error "KeyError"
  | some op =>
    match provider_pue op with
    | none => .error "KeyError"
    | some pue => .ok ((se.add (ge.scale gpu_count)).scale pue)

/-- `request_usage_gwp` (llm.py lines 236-251): `request_energy * factor`. -/
def request_usage_gwp (re : ValueOrRange) (if_electricity_mix_gwp : ℚ) : ValueOrRange :=
  re.mulc if_electricity_mix_gwp

/-- `request_usage_adpe` (llm.py lines 254-269): `request_energy * factor`. -/
def request_usage_adpe (re : ValueOrRange) (if_electricity_mix_adpe : ℚ) : ValueOrRange :=
  re.mulc if_electricity_mix_adpe

/-- `request_usage_pe` (llm.py lines 272-287): `request_energy * factor`. -/
def request_usage_pe (re : ValueOrRange) (if_electricity_mix_pe : ℚ) : ValueOrRange :=
  re.mulc if_electricity_mix_pe

/-- `request_usage_water` (llm.py lines 289-318):
`request_energy * (wue_onsite[map[provider]] + pue[map[provider]] * wcf)`.
Missing dictionary keys raise `KeyError`. -/
def request_usage_water (re : ValueOrRange) (if_electricity_mix_wcf : ℚ)
    (provider_wue_onsite : String → Option ℚ) (provider : String)
    (provider_pue : String → Option ℚ)
    (ai_company_to_data_center_provider : String → Option String) :
    Except String ValueOrRange :=
  match ai_company_to_data_center_provider provider with
  | none => .error "KeyError"
  | some op =>
    match provider_wue_onsite op with
    | none => .error "KeyError"
    | some wue =>
      match provider_pue op with
      | none => .error "KeyError"
      | some pue => .ok (re.mulc (wue + pue * if_electricity_mix_wcf))

/-- `server_gpu_embodied_gwp` (llm.py lines 321-340). -/
def server_gpu_embodied_gwp (server_embodied_gwp server_gpu_count
    gpu_embodied_gwp gpu_count : ℚ) : ℚ :=
  gpu_count / server_gpu_count * server_embodied_gwp + gpu_count * gpu_embodied_gwp

/-- `server_gpu_embodied_adpe` (llm.py lines 343-362). -/
def server_gpu_embodied_adpe (server_embodied_adpe server_gpu_count
    gpu_embodied_adpe gpu_count : ℚ) : ℚ :=
  gpu_count / server_gpu_count * server_embodied_adpe + gpu_count * gpu_embodied_adpe

/-- `server_gpu_embodied_pe` (llm.py lines 365-384). -/
def server_gpu_embodied_pe (server_embodied_pe server_gpu_count
    gpu_embodied_pe gpu_count : ℚ) : ℚ :=
  gpu_count / server_gpu_count * server_embodied_pe + gpu_count * gpu_embodied_pe

/-- `request_embodied_gwp` (llm.py lines 387-404):
`(generation_latency / server_lifetime) * embodied_value`. -/
def request_embodied_gwp (sg_embodied_gwp server_lifetime : ℚ)
    (gl : ValueOrRange) : ValueOrRange :=
  (gl.divc server_lifetime).mulc sg_embodied_gwp

/-- `request_embodied_adpe` (llm.py lines 407-424). -/
def request_embodied_adpe (sg_embodied_adpe server_lifetime : ℚ)
    (gl : ValueOrRange) : ValueOrRange :=
  (gl.divc server_lifetime).mulc sg_embodied_adpe

/-- `request_embodied_pe` (llm.py lines 427-444). -/
def request_embodied_pe (sg_embodied_pe server_lifetime : ℚ)
    (gl : ValueOrRange) : ValueOrRange :=
  (gl.divc server_lifetime).mulc sg_embodied_pe

/-- `request_embodied_water` (llm.py lines 447-471):
`generation_latency * water_fabricating_gpu * gpus_in_server / (server_lifetime * batching_size)`. -/
def request_embodied_water (server_lifetime batching_size
    water_fabricating_gpu gpus_in_server : ℚ) (gl : ValueOrRange) : ValueOrRange :=
  ((gl.mulc water_fabricating_gpu).mulc gpus_in_server).divc
    (server_lifetime * batching_size)

/-! DAG assembly and two-pass orchestration, `ecologits/impacts/llm.py`
lines 475-655.  The generic executor (`ecologits/impacts/dag.py`) is not among
the given source files; per spec §4.2 it is a pure memoized dependency-ordered
evaluation of the fixed graph, so the graph is embedded as a straight-line
evaluation of every node in dependency order, each node computed once. -/

/-- The nine named result fields that `compute_llm_impacts` extracts from the
DAG results dictionary (llm.py lines 630-631). -/
structure DagResults where
  request_energy : ValueOrRange
  request_usage_gwp : ValueOrRange
  request_usage_adpe : ValueOrRange
  request_usage_pe : ValueOrRange
  request_usage_water : ValueOrRange
  request_embodied_gwp : ValueOrRange
  request_embodied_adpe : ValueOrRange
  request_embodied_pe : ValueOrRange
  request_embodied_water : ValueOrRange
deriving DecidableEq

/-- `compute_llm_impacts_dag` (llm.py lines 475-582), with the calibration
constants at their documented defaults (the optional keyword parameters), the
three provider tables passed explicitly, and the two parameter counts as the
scalars that each orchestrator pass supplies.  Modelled from the spec: the
executor's evaluation order is dependency order with memoization (§4.2); a
node failure aborts the whole evaluation (§7). -/
def compute_llm_impacts_dag (provider : String)
    (model_active_parameter_count model_total_parameter_count : ℚ)
    (output_token_count : ℚ) (request_latency : Option ℚ)
    (if_electricity_mix_adpe if_electricity_mix_pe
      if_electricity_mix_gwp if_electricity_mix_wcf : ℚ)
    (provider_pue : String → Option ℚ)
    (provider_wue_onsite : String → Option ℚ)
    (ai_company_to_data_center_provider : String → Option String) :
    Except String DagResults := do
  let ge := gpu_energy model_active_parameter_count output_token_count
    GPU_ENERGY_ALPHA GPU_ENERGY_BETA GPU_ENERGY_STDEV
  let gl := generation_latency model_active_parameter_count output_token_count
    GPU_LATENCY_ALPHA GPU_LATENCY_BETA GPU_LATENCY_STDEV request_latency
  let mrm := model_required_memory model_total_parameter_count MODEL_QUANTIZATION_BITS
  let grc : ℚ := (gpu_required_count mrm GPU_MEMORY : ℤ)
  let se := server_energy gl SERVER_POWER SERVER_GPUS grc
  let re ← request_energy provider provider_pue
    ai_company_to_data_center_provider se grc ge
  let ugwp := request_usage_gwp re if_electricity_mix_gwp
  let uadpe := request_usage_adpe re if_electricity_mix_adpe
  let upe := request_usage_pe re if_electricity_mix_pe
  let uwater ← request_usage_water re if_electricity_mix_wcf
    provider_wue_onsite provider provider_pue ai_company_to_data_center_provider
  let sgg := server_gpu_embodied_gwp SERVER_EMBODIED_IMPACT_GWP SERVER_GPUS
    GPU_EMBODIED_IMPACT_GWP grc
  let sga := server_gpu_embodied_adpe SERVER_EMBODIED_IMPACT_ADPE SERVER_GPUS
    GPU_EMBODIED_IMPACT_ADPE grc
  let sgp := server_gpu_embodied_pe SERVER_EMBODIED_IMPACT_PE SERVER_GPUS
    GPU_EMBODIED_IMPACT_PE grc
  let egwp := request_embodied_gwp sgg HARDWARE_LIFESPAN gl
  let eadpe := request_embodied_adpe sga HARDWARE_LIFESPAN gl
  let epe := request_embodied_pe sgp HARDWARE_LIFESPAN gl
  let ewater := request_embodied_water HARDWARE_LIFESPAN BATCHING_SIZE
    WATER_FABRICATING_GPU GPUS_IN_SERVER gl
  .ok {
    request_energy := re
    request_usage_gwp := ugwp
    request_usage_adpe := uadpe
    request_usage_pe := upe
    request_usage_water := uwater
    request_embodied_gwp := egwp
    request_embodied_adpe := eadpe
    request_embodied_pe := epe
    request_embodied_water := ewater }

/-- The arguments of `compute_llm_impacts` other than the two parameter
counts, bundled so that the orchestrator's theorems quantify over them. -/
structure LlmArgs where
  provider : String
  output_token_count : ℚ
  request_latency : Option ℚ
  if_electricity_mix_adpe : ℚ
  if_electricity_mix_pe : ℚ
  if_electricity_mix_gwp : ℚ
  if_electricity_mix_wcf : ℚ
  provider_pue : String → Option ℚ
  provider_wue_onsite : String → Option ℚ
  ai_company_to_data_center_provider : String → Option String

/-- One orchestrator pass: `compute_llm_impacts_dag` applied to one scalar
leaf pair (llm.py lines 633-644). -/
def dagRun (args : LlmArgs) (act_param tot_param : ℚ) : Except String DagResults :=
  compute_llm_impacts_dag args.provider act_param tot_param
    args.output_token_count args.request_latency
    args.if_electricity_mix_adpe args.if_electricity_mix_pe
    args.if_electricity_mix_gwp args.if_electricity_mix_wcf
    args.provider_pue args.provider_wue_onsite
    args.ai_company_to_data_center_provider

/-- The scalar leaf pairs the orchestrator runs the graph on (llm.py lines
616-632): a single pair when both parameter counts are scalars, otherwise the
all-minimums pair followed by the all-maximums pair, a scalar leaf substituted
unchanged into both. -/
def paramPasses (active total : ValueOrRange) : List (ℚ × ℚ) :=
  match active, total with
  | .val a, .val t => [(a, t)]
  | a, t => [(a.vmin, t.vmin), (a.vmax, t.vmax)]

/-- The per-field merge of the second pass into the first (llm.py lines
646-653): a `RangeValue` whose `min` is the first pass's value reduced to its
own `min` when it is an interval, and whose `max` is the second pass's value
reduced to its own `max` when it is an interval. -/
def mergeField (prev cur : ValueOrRange) : ValueOrRange :=
  .range prev.vmin cur.vmax

/-- Fieldwise merge of a whole second-pass result into the first-pass
result. -/
def mergeResults (prev cur : DagResults) : DagResults where
  request_energy := mergeField prev.request_energy cur.request_energy
  request_usage_gwp := mergeField prev.request_usage_gwp cur.request_usage_gwp
  request_usage_adpe := mergeField prev.request_usage_adpe cur.request_usage_adpe
  request_usage_pe := mergeField prev.request_usage_pe cur.request_usage_pe
  request_usage_water := mergeField prev.request_usage_water cur.request_usage_water
  request_embodied_gwp := mergeField prev.request_embodied_gwp cur.request_embodied_gwp
  request_embodied_adpe := mergeField prev.request_embodied_adpe cur.request_embodied_adpe
  request_embodied_pe := mergeField prev.request_embodied_pe cur.request_embodied_pe
  request_embodied_water := mergeField prev.request_embodied_water cur.request_embodied_water

/-- The orchestrator's per-pass loop over the leaf pairs (llm.py lines
632-655): the first pass's results are stored, each later pass is merged
fieldwise via `mergeField`. -/
def runPasses (args : LlmArgs) (acc : Option DagResults) :
    List (ℚ × ℚ) → Except String (Option DagResults)
  | [] => .ok acc
  | p :: rest => do
    let res ← dagRun args p.1 p.2
    match acc with
    | none => runPasses args (some res) rest
    | some prev => runPasses args (some (mergeResults prev res)) rest

/-- `compute_llm_impacts` (llm.py lines 584-655), up to the point where the
merged nine-field results dictionary is complete (the remaining lines only
repackage those fields into the typed `Impacts` result). -/
def compute_llm_impacts (model_active_parameter_count
    model_total_parameter_count : ValueOrRange) (args : LlmArgs) :
    Except String (Option DagResults) :=
  runPasses args none
    (paramPasses model_active_parameter_count model_total_parameter_count)

/-! Electricity-mix repository, `ecologits/electricity_mix_repository.py`.
A CSV row is embedded with its numeric fields already parsed; the `wcf`
field is an `Option ℚ` where `none` models an empty (or missing) `wcf`
cell, on which Python's `float("")` raises `ValueError`.  Warnings are
embedded as a `Bool` flag returned alongside the lookup result. -/

/-- Python's `str.upper()` on the ASCII zone codes of the CSV: upper-case
every character. -/
def pyUpper (s : String) : String :=
  ⟨s.data.map Char.toUpper⟩

/-- One row of `electricity_mixes.csv` as `csv.DictReader` yields it, with
the numeric cells pre-parsed (`name`, `adpe`, `pe`, `gwp` are assumed
well-formed; only the `wcf` cell may be empty). -/
structure CsvRow where
  name : String
  adpe : ℚ
  pe : ℚ
  gwp : ℚ
  wcf : Option ℚ
deriving DecidableEq

/-- The `ElectricityMix` dataclass (electricity_mix_repository.py lines
8-23). -/
structure ElectricityMix where
  zone : String
  adpe : ℚ
  pe : ℚ
  gwp : ℚ
  wcf : ℚ
deriving DecidableEq

/-- The scan over the CSV for the world row (electricity_mix_repository.py
lines 41-44, also lines 66-69): every row whose upper-cased name is `WOR`
(re)assigns `wcf_wor_value_record := float(row.get("wcf", ""))`; an empty
`wcf` cell there raises `ValueError`.  The result is `none` when no such row
exists, i.e. the local variable stayed unbound. -/
def findWorWcfGo (acc : Option ℚ) : List CsvRow → Except String (Option ℚ)
  | [] => .ok acc
  | row :: rest =>
    if pyUpper row.name = "WOR" then
      match row.wcf with
      | none => .error "ValueError"
      | some v => findWorWcfGo (some v) rest
    else findWorWcfGo acc rest

/-- The world-row scan started on the unbound state (no `WOR` row seen). -/
def findWorWcf (rows : List CsvRow) : Except String (Option ℚ) :=
  findWorWcfGo none rows

/-- The body of `ElectricityMixRepository.from_csv` (lines 63-82): a single
pass over the rows, tracking the world `wcf` seen so far; a row's `wcf`
becomes its own parsed value when the cell is non-empty, otherwise the world
value — which raises `NameError` (unbound local) when no `WOR` row has been
read yet.  A `WOR` row with an empty `wcf` cell raises `ValueError`. -/
def fromCsvGo (worWcf : Option ℚ) (acc : List ElectricityMix) :
    List CsvRow → Except String (List ElectricityMix)
  | [] => .ok acc
  | row :: rest => do
    let worWcfNext ←
      if pyUpper row.name = "WOR" then
        match row.wcf with
        | none => Except.error "ValueError"
        | some v => Except.ok (some v)
      else Except.ok worWcf
    let wcf ←
      match row.wcf with
      | some v => Except.ok v
      | none =>
        match worWcfNext with
        | some w => Except.ok w
        | none => Except.error "NameError"
    fromCsvGo worWcfNext
      (acc ++ [{ zone := row.name, adpe := row.adpe, pe := row.pe,
                 gwp := row.gwp, wcf := wcf : ElectricityMix }]) rest

/-- The row loop of `from_csv` started on the unbound world state and an
empty mix list. -/
def from_csv (rows : List CsvRow) : Except String (List ElectricityMix) :=
  fromCsvGo none [] rows

/-- The lookup loop of `find_electricity_mix` (lines 46-55): the first stored
mix whose zone equals the query is returned; at that point the comparison
`electricity_mix.wcf == wcf_wor_value_record` is evaluated, which raises
`NameError` when no `WOR` row existed in the CSV, and otherwise decides the
"using world average" warning (emitted only for zones other than `WOR`).
The returned `Bool` records whether the warning was emitted. -/
def findLoop (worWcf : Option ℚ) (zone : String) :
    List ElectricityMix → Except String (Option ElectricityMix × Bool)
  | [] => .ok (none, false)
  | mix :: rest =>
    if mix.zone = zone then
      match worWcf with
      | none => .error "NameError"
      | some w =>
        .ok (some mix, decide (mix.wcf = w) && decide (zone ≠ "WOR"))
    else findLoop worWcf zone rest

/-- `ElectricityMixRepository.find_electricity_mix` (lines 34-55): on every
call the CSV is re-read to find the world `wcf`, then the stored mixes are
scanned for the zone. -/
def find_electricity_mix (mixes : List ElectricityMix) (zone : String)
    (rows : List CsvRow) : Except String (Option ElectricityMix × Bool) := do
  let worWcf ← findWorWcf rows
  findLoop worWcf zone mixes

/-! Concrete scenario inputs and small result extractors used by the
theorems below. -/

/-- Whether a DAG evaluation completed without raising. -/
def exceptOk (r : Except String DagResults) : Bool :=
  match r with
  | .ok _ => true
  | .error _ => false

/-- Extract one field of a completed DAG evaluation (`.val 0` on error). -/
def dagField (r : Except String DagResults) (f : DagResults → ValueOrRange) : ValueOrRange :=
  match r with
  | .ok d => f d
  | .error _ => .val 0

/-- Unwrap the orchestrator's result (`none` on error). -/
def optResultsOf (r : Except String (Option DagResults)) : Option DagResults :=
  match r with
  | .ok o => o
  | .error _ => none

/-- Extract one field of the orchestrator's merged results (`.val 0` when
absent). -/
def fieldOf (o : Option DagResults) (f : DagResults → ValueOrRange) : ValueOrRange :=
  match o with
  | some d => f d
  | none => .val 0

/-- The exception name of a failed orchestrator run, `none` on success. -/
def errorNameOf (r : Except String (Option DagResults)) : Option String :=
  match r with
  | .error e => some e
  | .ok _ => none

/-- Spec §8 Scenario A: active = total = 7 (billion), 100 output tokens, no
latency ceiling, provider `google` (operator Google, PUE 1.09), all four grid
impact factors zero. -/
def scenarioA : Except String DagResults :=
  compute_llm_impacts_dag "google" 7 7 100 none 0 0 0 0
    PROVIDER_PUE PROVIDER_WUE_ONSITE AI_COMPANY_TO_DATA_CENTER_PROVIDER

/-- Leaf arguments for spec §8 Scenario D (and the one-pass counterexample):
provider `google`, 100 output tokens, no latency ceiling, nonzero grid
factors. -/
def scenarioD_args : LlmArgs :=
  { provider := "google", output_token_count := 100, request_latency := none,
    if_electricity_mix_adpe := 1/1000, if_electricity_mix_pe := 10,
    if_electricity_mix_gwp := 59/100, if_electricity_mix_wcf := 2,
    provider_pue := PROVIDER_PUE, provider_wue_onsite := PROVIDER_WUE_ONSITE,
    ai_company_to_data_center_provider := AI_COMPANY_TO_DATA_CENTER_PROVIDER }

/-- Leaf arguments with a provider absent from
`AI_COMPANY_TO_DATA_CENTER_PROVIDER`. -/
def unknownProviderArgs : LlmArgs :=
  { provider := "notaprovider", output_token_count := 100, request_latency := none,
    if_electricity_mix_adpe := 0, if_electricity_mix_pe := 0,
    if_electricity_mix_gwp := 0, if_electricity_mix_wcf := 0,
    provider_pue := PROVIDER_PUE, provider_wue_onsite := PROVIDER_WUE_ONSITE,
    ai_company_to_data_center_provider := AI_COMPANY_TO_DATA_CENTER_PROVIDER }

/-- An orchestrator run with an unknown provider identifier. -/
def scenarioUnknown : Except String (Option DagResults) :=
  compute_llm_impacts (.val 7) (.val 7) unknownProviderArgs

/-- A CSV with a world row (`wcf` 6) and a zone `FRA` whose `wcf` cell holds
the literal `0` (a non-empty string, hence parsed, not substituted). -/
def c3rows : List CsvRow :=
  [{ name := "WOR", adpe := 1, pe := 2, gwp := 3, wcf := some 6 },
   { name := "FRA", adpe := 4, pe := 5, gwp := 0, wcf := some 0 }]

/-- The repository `from_csv` builds from `c3rows`: the zero `wcf` of `FRA`
is kept, not replaced by the world value 6. -/
def c3mixes : List ElectricityMix :=
  [{ zone := "WOR", adpe := 1, pe := 2, gwp := 3, wcf := 6 },
   { zone := "FRA", adpe := 4, pe := 5, gwp := 0, wcf := 0 }]

/-- A CSV with a world row and a zone `DEU` whose `wcf` cell is empty. -/
def c3wRows : List CsvRow :=
  [{ name := "WOR", adpe := 1, pe := 2, gwp := 3, wcf := some 6 },
   { name := "DEU", adpe := 7, pe := 8, gwp := 9, wcf := none }]

/-- A CSV whose only world row carries `wcf` 5. -/
def c9rows : List CsvRow :=
  [{ name := "WOR", adpe := 1, pe := 2, gwp := 3, wcf := some 5 }]

/-- A stored mix for zone `DEU` whose genuine local `wcf` 5 coincides with
the world value of `c9rows`. -/
def c9mix : ElectricityMix :=
  { zone := "DEU", adpe := 1, pe := 2, gwp := 3, wcf := 5 }

/-- A CSV with no `WOR` row at all. -/
def c10rows : List CsvRow :=
  [{ name := "FRA", adpe := 1, pe := 2, gwp := 3, wcf := some 4 }]

/-- The mixes matching `c10rows`. -/
def c10mixes : List ElectricityMix :=
  [{ zone := "FRA", adpe := 1, pe := 2, gwp := 3, wcf := 4 }]

/-- A non-world row with an empty `wcf` cell. -/
def c10badRow : CsvRow := { name := "FRA", adpe := 1, pe := 2, gwp := 3, wcf := none }

/-! Helper lemmas shared by the claim theorems. -/

/-- With both parameter-count leaves scalar the orchestrator is a single DAG
evaluation whose results are returned unchanged. -/
theorem compute_scalar_scalar (args : LlmArgs) (a t : ℚ) :
    compute_llm_impacts (.val a) (.val t) args = (dagRun args a t).map some := by
  unfold compute_llm_impacts paramPasses
  cases h : dagRun args a t <;>
    simp [runPasses, h, Except.map, Except.bind, Bind.bind]

/-- With an interval active-parameter leaf and a scalar total leaf the
orchestrator is two DAG evaluations merged fieldwise. -/
theorem compute_range_val (args : LlmArgs) (a1 a2 t : ℚ) :
    compute_llm_impacts (.range a1 a2) (.val t) args =
      (dagRun args a1 t).bind fun r1 =>
        (dagRun args a2 t).map fun r2 => some (mergeResults r1 r2) := by
  unfold compute_llm_impacts paramPasses
  cases h1 : dagRun args a1 t <;> cases h2 : dagRun args a2 t <;>
    simp [runPasses, h1, h2, Except.map, Except.bind, Bind.bind,
      ValueOrRange.vmin, ValueOrRange.vmax]

/-- With a scalar active-parameter leaf and an interval total leaf the
orchestrator is two DAG evaluations merged fieldwise. -/
theorem compute_val_range (args : LlmArgs) (a t1 t2 : ℚ) :
    compute_llm_impacts (.val a) (.range t1 t2) args =
      (dagRun args a t1).bind fun r1 =>
        (dagRun args a t2).map fun r2 => some (mergeResults r1 r2) := by
  unfold compute_llm_impacts paramPasses
  cases h1 : dagRun args a t1 <;> cases h2 : dagRun args a t2 <;>
    simp [runPasses, h1, h2, Except.map, Except.bind, Bind.bind,
      ValueOrRange.vmin, ValueOrRange.vmax]

/-- With both leaves intervals the orchestrator is two DAG evaluations merged
fieldwise. -/
theorem compute_range_range (args : LlmArgs) (a1 a2 t1 t2 : ℚ) :
    compute_llm_impacts (.range a1 a2) (.range t1 t2) args =
      (dagRun args a1 t1).bind fun r1 =>
        (dagRun args a2 t2).map fun r2 => some (mergeResults r1 r2) := by
  unfold compute_llm_impacts paramPasses
  cases h1 : dagRun args a1 t1 <;> cases h2 : dagRun args a2 t2 <;>
    simp [runPasses, h1, h2, Except.map, Except.bind, Bind.bind,
      ValueOrRange.vmin, ValueOrRange.vmax]

/-- A DAG evaluation succeeds as soon as the three provider lookups
resolve. -/
theorem dagRun_ok_of_lookups (args : LlmArgs) (a t : ℚ) (op : String) (pue wue : ℚ)
    (hai : args.ai_company_to_data_center_provider args.provider = some op)
    (hpue : args.provider_pue op = some pue)
    (hwue : args.provider_wue_onsite op = some wue) :
    ∃ d, dagRun args a t = .ok d := by
  simp [dagRun, compute_llm_impacts_dag, request_energy, request_usage_water,
    hai, hpue, hwue, Bind.bind, Except.bind]

/-- A DAG evaluation raises `KeyError` whenever the provider is absent from
the operator table, or its operator is absent from the PUE or WUE table. -/
theorem dagRun_keyerror (args : LlmArgs) (a t : ℚ)
    (h : args.ai_company_to_data_center_provider args.provider = none ∨
      (∃ op, args.ai_company_to_data_center_provider args.provider = some op ∧
        (args.provider_pue op = none ∨ args.provider_wue_onsite op = none))) :
    dagRun args a t = .error "KeyError" := by
  rcases h with h | ⟨op, hop, h2⟩
  · simp [dagRun, compute_llm_impacts_dag, request_energy, h, Bind.bind, Except.bind]
  · rcases h2 with hpue | hwue
    · simp [dagRun, compute_llm_impacts_dag, request_energy, hop, hpue,
        Bind.bind, Except.bind]
    · cases hpc : args.provider_pue op
      · simp [dagRun, compute_llm_impacts_dag, request_energy, hop, hpc,
          Bind.bind, Except.bind]
      · simp [dagRun, compute_llm_impacts_dag, request_energy, request_usage_water,
          hop, hpc, hwue, Bind.bind, Except.bind]

/-- When every pass raises `KeyError`, so does the whole orchestrator run. -/
theorem compute_keyerror_of_dagRun (active total : ValueOrRange) (args : LlmArgs)
    (h : ∀ a t, dagRun args a t = .error "KeyError") :
    compute_llm_impacts active total args = .error "KeyError" := by
  cases active <;> cases total <;>
    simp [compute_llm_impacts, paramPasses, runPasses, h, Bind.bind, Except.bind]

/-- The world-row scan leaves the world `wcf` variable unbound when no row is
named `WOR`. -/
theorem findWorWcf_none (rows : List CsvRow)
    (hnw : ∀ r ∈ rows, pyUpper r.name ≠ "WOR") :
    findWorWcf rows = .ok none := by
  induction rows with
  | nil => rfl
  | cons head rest ih =>
    rw [findWorWcf, findWorWcfGo, if_neg (hnw head (by simp))]
    exact ih (fun r hr => hnw r (by simp [hr]))

/-- The lookup loop raises `NameError` on the unbound world state as soon as
some stored mix matches the zone. -/
theorem findLoop_unbound (mixes : List ElectricityMix) (zone : String)
    (hmem : ∃ m ∈ mixes, m.zone = zone) :
    findLoop none zone mixes = .error "NameError" := by
  induction mixes with
  | nil => simp at hmem
  | cons head rest ih =>
    by_cases hz : head.zone = zone
    · simp [findLoop, hz]
    · rw [findLoop, if_neg hz]
      obtain ⟨m, hm, hmz⟩ := hmem
      rcases List.mem_cons.mp hm with rfl | hm2
      · exact absurd hmz hz
      · exact ih ⟨m, hm2, hmz⟩

/-- The `from_csv` loop raises `NameError` when a non-world row with an empty
`wcf` cell is reached before any `WOR` row. -/
theorem fromCsvGo_unbound (pre : List CsvRow) (row : CsvRow) (rest : List CsvRow)
    (acc : List ElectricityMix)
    (hpre_nw : ∀ r ∈ pre, pyUpper r.name ≠ "WOR")
    (hpre_w : ∀ r ∈ pre, r.wcf ≠ none)
    (hrow_nw : pyUpper row.name ≠ "WOR") (hrow : row.wcf = none) :
    fromCsvGo none acc (pre ++ row :: rest) = .error "NameError" := by
  induction pre generalizing acc with
  | nil =>
    simp [fromCsvGo, hrow_nw, hrow, Bind.bind, Except.bind]
  | cons p pre' ih =>
    have hpw := hpre_w p (by simp)
    cases hpv : p.wcf with
    | none => exact absurd hpv hpw
    | some v =>
      rw [List.cons_append, fromCsvGo]
      simp only [if_neg (hpre_nw p (by simp)), hpv, Bind.bind, Except.bind]
      exact ih _ (fun r hr => hpre_nw r (by simp [hr]))
        (fun r hr => hpre_w r (by simp [hr]))

/-! Claim theorems. -/

/-- Claim C1, counterexample: in Scenario A (active = total = 7 billion, 100
output tokens, provider `google` with PUE 1.09, all four grid impact factors
zero) the evaluation succeeds, yet `request_usage_water` is an interval with
strictly positive lower bound — not exactly 0 as the claim states, because
the node computes `energy × (wue_onsite + pue × wcf)` and Google's on-site
WUE 0.916 survives a zero grid water factor. -/
theorem c1_counterexample :
    exceptOk scenarioA = true ∧
    0 < (dagField scenarioA (fun d => d.request_usage_water)).vmin := by
  have hceil : gpu_required_count (model_required_memory 7 MODEL_QUANTIZATION_BITS) GPU_MEMORY = 1 := by
    norm_num [gpu_required_count, model_required_memory, MODEL_QUANTIZATION_BITS,
      GPU_MEMORY, Int.ceil_eq_iff]
  have hmap : AI_COMPANY_TO_DATA_CENTER_PROVIDER "google" = some "Google" := by
    simp [AI_COMPANY_TO_DATA_CENTER_PROVIDER]
  have hpue : PROVIDER_PUE "Google" = some (109/100) := by simp [PROVIDER_PUE]
  have hwue : PROVIDER_WUE_ONSITE "Google" = some (916/1000) := by
    simp [PROVIDER_WUE_ONSITE]
  refine ⟨?_, ?_⟩ <;>
    norm_num [scenarioA, compute_llm_impacts_dag, dagField, exceptOk, gpu_energy,
      generation_latency, server_energy, request_energy, request_usage_gwp,
      request_usage_adpe, request_usage_pe, request_usage_water,
      server_gpu_embodied_gwp, server_gpu_embodied_adpe, server_gpu_embodied_pe,
      request_embodied_gwp, request_embodied_adpe, request_embodied_pe,
      request_embodied_water, hceil, hmap, hpue, hwue, max_def, Bind.bind, Except.bind,
      ValueOrRange.add, ValueOrRange.scale, ValueOrRange.mulc, ValueOrRange.divc,
      ValueOrRange.vmin, ValueOrRange.vmax, ValueOrRange.ltScalar,
      GPU_ENERGY_ALPHA, GPU_ENERGY_BETA, GPU_ENERGY_STDEV, GPU_LATENCY_ALPHA,
      GPU_LATENCY_BETA, GPU_LATENCY_STDEV, SERVER_POWER, SERVER_GPUS,
      SERVER_EMBODIED_IMPACT_GWP, SERVER_EMBODIED_IMPACT_ADPE, SERVER_EMBODIED_IMPACT_PE,
      GPU_EMBODIED_IMPACT_GWP, GPU_EMBODIED_IMPACT_ADPE, GPU_EMBODIED_IMPACT_PE,
      HARDWARE_LIFESPAN, BATCHING_SIZE, GPUS_IN_SERVER, WATER_FABRICATING_GPU]

/-- Claim C1, amended: in Scenario A the usage impacts scaled by the zero
grid factors (`request_usage_gwp`, `request_usage_adpe`, `request_usage_pe`)
are exactly the degenerate interval `[0, 0]`; `request_usage_water` is
strictly positive (it also carries the on-site WUE term); and all four
embodied impacts are strictly positive. -/
theorem c1_scenario_a_amended :
    exceptOk scenarioA = true ∧
    dagField scenarioA (fun d => d.request_usage_gwp) = .range 0 0 ∧
    dagField scenarioA (fun d => d.request_usage_adpe) = .range 0 0 ∧
    dagField scenarioA (fun d => d.request_usage_pe) = .range 0 0 ∧
    0 < (dagField scenarioA (fun d => d.request_usage_water)).vmin ∧
    0 < (dagField scenarioA (fun d => d.request_embodied_gwp)).vmin ∧
    0 < (dagField scenarioA (fun d => d.request_embodied_adpe)).vmin ∧
    0 < (dagField scenarioA (fun d => d.request_embodied_pe)).vmin ∧
    0 < (dagField scenarioA (fun d => d.request_embodied_water)).vmin := by
  have hceil : gpu_required_count (model_required_memory 7 MODEL_QUANTIZATION_BITS) GPU_MEMORY = 1 := by
    norm_num [gpu_required_count, model_required_memory, MODEL_QUANTIZATION_BITS,
      GPU_MEMORY, Int.ceil_eq_iff]
  have hmap : AI_COMPANY_TO_DATA_CENTER_PROVIDER "google" = some "Google" := by
    simp [AI_COMPANY_TO_DATA_CENTER_PROVIDER]
  have hpue : PROVIDER_PUE "Google" = some (109/100) := by simp [PROVIDER_PUE]
  have hwue : PROVIDER_WUE_ONSITE "Google" = some (916/1000) := by
    simp [PROVIDER_WUE_ONSITE]
  refine ⟨?_, ?_, ?_, ?_, ?_, ?_, ?_, ?_, ?_⟩ <;>
    norm_num [scenarioA, compute_llm_impacts_dag, dagField, exceptOk, gpu_energy,
      generation_latency, server_energy, request_energy, request_usage_gwp,
      request_usage_adpe, request_usage_pe, request_usage_water,
      server_gpu_embodied_gwp, server_gpu_embodied_adpe, server_gpu_embodied_pe,
      request_embodied_gwp, request_embodied_adpe, request_embodied_pe,
      request_embodied_water, hceil, hmap, hpue, hwue, max_def, Bind.bind, Except.bind,
      ValueOrRange.add, ValueOrRange.scale, ValueOrRange.mulc, ValueOrRange.divc,
      ValueOrRange.vmin, ValueOrRange.vmax, ValueOrRange.ltScalar,
      GPU_ENERGY_ALPHA, GPU_ENERGY_BETA, GPU_ENERGY_STDEV, GPU_LATENCY_ALPHA,
      GPU_LATENCY_BETA, GPU_LATENCY_STDEV, SERVER_POWER, SERVER_GPUS,
      SERVER_EMBODIED_IMPACT_GWP, SERVER_EMBODIED_IMPACT_ADPE, SERVER_EMBODIED_IMPACT_PE,
      GPU_EMBODIED_IMPACT_GWP, GPU_EMBODIED_IMPACT_ADPE, GPU_EMBODIED_IMPACT_PE,
      HARDWARE_LIFESPAN, BATCHING_SIZE, GPUS_IN_SERVER, WATER_FABRICATING_GPU]

/-- Claim C2: in two-pass mode every one of the nine result fields is merged
into an interval whose `min` is the first (all-minimums) pass's value reduced
to its own `min` when it is an interval, and whose `max` is the second
(all-maximums) pass's value reduced to its own `max`; and in Scenario D
(active parameter count the interval `(6, 8)`, scalar total 70) the final
energy figure is such an interval, not a scalar. -/
theorem c2_two_pass_merge :
    (∀ r1 r2 : DagResults,
      (mergeResults r1 r2).request_energy =
        .range r1.request_energy.vmin r2.request_energy.vmax ∧
      (mergeResults r1 r2).request_usage_gwp =
        .range r1.request_usage_gwp.vmin r2.request_usage_gwp.vmax ∧
      (mergeResults r1 r2).request_usage_adpe =
        .range r1.request_usage_adpe.vmin r2.request_usage_adpe.vmax ∧
      (mergeResults r1 r2).request_usage_pe =
        .range r1.request_usage_pe.vmin r2.request_usage_pe.vmax ∧
      (mergeResults r1 r2).request_usage_water =
        .range r1.request_usage_water.vmin r2.request_usage_water.vmax ∧
      (mergeResults r1 r2).request_embodied_gwp =
        .range r1.request_embodied_gwp.vmin r2.request_embodied_gwp.vmax ∧
      (mergeResults r1 r2).request_embodied_adpe =
        .range r1.request_embodied_adpe.vmin r2.request_embodied_adpe.vmax ∧
      (mergeResults r1 r2).request_embodied_pe =
        .range r1.request_embodied_pe.vmin r2.request_embodied_pe.vmax ∧
      (mergeResults r1 r2).request_embodied_water =
        .range r1.request_embodied_water.vmin r2.request_embodied_water.vmax) ∧
    (∀ (args : LlmArgs) (a1 a2 t : ℚ),
      compute_llm_impacts (.range a1 a2) (.val t) args =
        (dagRun args a1 t).bind fun r1 =>
          (dagRun args a2 t).map fun r2 => some (mergeResults r1 r2)) ∧
    (fieldOf (optResultsOf (compute_llm_impacts (.range 6 8) (.val 70) scenarioD_args))
        (fun d => d.request_energy)).isRange = true ∧
    fieldOf (optResultsOf (compute_llm_impacts (.range 6 8) (.val 70) scenarioD_args))
        (fun d => d.request_energy) =
      .range (dagField (dagRun scenarioD_args 6 70) (fun d => d.request_energy)).vmin
        (dagField (dagRun scenarioD_args 8 70) (fun d => d.request_energy)).vmax := by
  have hai : scenarioD_args.ai_company_to_data_center_provider scenarioD_args.provider =
      some "Google" := by
    simp [scenarioD_args, AI_COMPANY_TO_DATA_CENTER_PROVIDER]
  have hpue : scenarioD_args.provider_pue "Google" = some (109/100) := by
    simp [scenarioD_args, PROVIDER_PUE]
  have hwue : scenarioD_args.provider_wue_onsite "Google" = some (916/1000) := by
    simp [scenarioD_args, PROVIDER_WUE_ONSITE]
  obtain ⟨d6, h6⟩ := dagRun_ok_of_lookups scenarioD_args 6 70 "Google" _ _ hai hpue hwue
  obtain ⟨d8, h8⟩ := dagRun_ok_of_lookups scenarioD_args 8 70 "Google" _ _ hai hpue hwue
  refine ⟨fun r1 r2 => ⟨rfl, rfl, rfl, rfl, rfl, rfl, rfl, rfl, rfl⟩,
    compute_range_val, ?_, ?_⟩
  · rw [compute_range_val, h6, h8]
    simp [Except.bind, Except.map, optResultsOf, fieldOf, mergeResults, mergeField,
      ValueOrRange.isRange]
  · rw [compute_range_val, h6, h8]
    simp [Except.bind, Except.map, optResultsOf, fieldOf, dagField, mergeResults,
      mergeField]

/-- Claim C3, counterexample: a zone (`FRA`) whose `wcf` cell holds the
literal `0` is stored with water factor 0 — not the world average 6 — and
`find_electricity_mix` returns it without emitting the warning: the
substitution only happens for an absent (empty) cell, never for a zero
value. -/
theorem c3_counterexample :
    from_csv c3rows = .ok c3mixes ∧
    find_electricity_mix c3mixes "FRA" c3rows =
      .ok (some { zone := "FRA", adpe := 4, pe := 5, gwp := 0, wcf := 0 }, false) ∧
    (0:ℚ) ≠ 6 := by decide

/-- Claim C3, amended: when a zone's `wcf` cell is absent (empty), the stored
record carries the world-average water factor in its place and the lookup
emits the warning for that zone, while the zone's `gwp`, `adpe` and `pe`
factors are carried over verbatim (never substituted, even when zero). -/
theorem c3_amended (worRow zRow : CsvRow) (w : ℚ)
    (hwn : worRow.name = "WOR") (hww : worRow.wcf = some w)
    (hzw : zRow.wcf = none) (hzup : pyUpper zRow.name ≠ "WOR")
    (hzn : zRow.name ≠ "WOR") :
    from_csv [worRow, zRow] =
      .ok [{ zone := worRow.name, adpe := worRow.adpe, pe := worRow.pe,
             gwp := worRow.gwp, wcf := w },
           { zone := zRow.name, adpe := zRow.adpe, pe := zRow.pe,
             gwp := zRow.gwp, wcf := w }] ∧
    find_electricity_mix
      [{ zone := worRow.name, adpe := worRow.adpe, pe := worRow.pe,
         gwp := worRow.gwp, wcf := w },
       { zone := zRow.name, adpe := zRow.adpe, pe := zRow.pe,
         gwp := zRow.gwp, wcf := w }] zRow.name [worRow, zRow] =
      .ok (some { zone := zRow.name, adpe := zRow.adpe, pe := zRow.pe,
                  gwp := zRow.gwp, wcf := w }, true) := by
  have hup : pyUpper worRow.name = "WOR" := by rw [hwn]; decide
  have hne : worRow.name ≠ zRow.name := by
    rw [hwn]; exact fun hh => hzn hh.symm
  constructor
  · simp [from_csv, fromCsvGo, hup, hww, hzw, hzup, Bind.bind, Except.bind]
  · simp [find_electricity_mix, findWorWcf, findWorWcfGo, findLoop, hup, hww, hzw,
      hzup, hne, hzn, Bind.bind, Except.bind]

/-- Claim C3, witness: the amended statement evaluated on a concrete CSV with
world water factor 6 and a `DEU` row with an empty `wcf` cell. -/
theorem c3_witness :
    (c3wRows.get ⟨0, by decide⟩).name = "WOR" ∧
    (c3wRows.get ⟨0, by decide⟩).wcf = some 6 ∧
    (c3wRows.get ⟨1, by decide⟩).wcf = none ∧
    pyUpper (c3wRows.get ⟨1, by decide⟩).name ≠ "WOR" ∧
    (c3wRows.get ⟨1, by decide⟩).name ≠ "WOR" ∧
    from_csv c3wRows =
      .ok [{ zone := "WOR", adpe := 1, pe := 2, gwp := 3, wcf := 6 },
           { zone := "DEU", adpe := 7, pe := 8, gwp := 9, wcf := 6 }] ∧
    find_electricity_mix
      [{ zone := "WOR", adpe := 1, pe := 2, gwp := 3, wcf := 6 },
       { zone := "DEU", adpe := 7, pe := 8, gwp := 9, wcf := 6 }] "DEU" c3wRows =
      .ok (some { zone := "DEU", adpe := 7, pe := 8, gwp := 9, wcf := 6 }, true) := by
  refine ⟨by decide, by decide, by decide, by decide, by decide, ?_⟩
  exact c3_amended (c3wRows.get ⟨0, by decide⟩) (c3wRows.get ⟨1, by decide⟩) 6
    (by decide) (by decide) (by decide) (by decide) (by decide)

/-- Claim C4: the latency node compares its computed interval against the
measured ceiling by the rule `interval < threshold iff max(interval) <
threshold`, and whenever the unclamped estimate's max reaches or exceeds the
ceiling it returns exactly the scalar `request_latency`; concretely, a 50
ms/token mean with a 1 s ceiling and 100 output tokens yields the scalar 1. -/
theorem c4_generation_latency_clamp :
    (∀ (v : ValueOrRange) (t : ℚ), v.ltScalar t ↔ v.vmax < t) ∧
    (∀ active tokens la lb ls ceiling : ℚ,
      ceiling ≤ tokens * (la * active + lb + 196 / 100 * ls) →
      generation_latency active tokens la lb ls (some ceiling) = .val ceiling) ∧
    generation_latency 0 100 0 (1 / 20) GPU_LATENCY_STDEV (some 1) = .val 1 := by
  refine ⟨fun v t => Iff.rfl, fun active tokens la lb ls ceiling h => ?_, ?_⟩
  · simp only [generation_latency, ValueOrRange.ltScalar, ValueOrRange.vmax]
    rw [if_neg (not_lt.mpr h)]
  · simp only [generation_latency, ValueOrRange.ltScalar, ValueOrRange.vmax,
      GPU_LATENCY_STDEV]
    norm_num

/-- Claim C4, witness: the clamping branch applied at a concrete input whose
estimate max (5 s) exceeds the 1 s ceiling. -/
theorem c4_witness :
    (1:ℚ) ≤ 100 * (0 * 34 + 1 / 20 + 196 / 100 * 0) ∧
    generation_latency 34 100 0 (1 / 20) 0 (some 1) = .val 1 :=
  ⟨by norm_num,
    c4_generation_latency_clamp.2.1 34 100 0 (1 / 20) 0 1 (by norm_num)⟩

/-- Claim C5, counterexample: with both parameter-count leaves scalar the
orchestrator is indeed a single pass returned unchanged, but the output
fields are not scalars: the final `request_energy` of a one-pass run is an
interval (the ±1.96σ GPU-energy confidence band), refuting "every output
field then being the scalar that single pass produced". -/
theorem c5_counterexample :
    compute_llm_impacts (.val 7) (.val 7) scenarioD_args =
      (dagRun scenarioD_args 7 7).map some ∧
    (fieldOf (optResultsOf (compute_llm_impacts (.val 7) (.val 7) scenarioD_args))
        (fun d => d.request_energy)).isRange = true := by
  have hceil : gpu_required_count (model_required_memory 7 MODEL_QUANTIZATION_BITS) GPU_MEMORY = 1 := by
    norm_num [gpu_required_count, model_required_memory, MODEL_QUANTIZATION_BITS,
      GPU_MEMORY, Int.ceil_eq_iff]
  have hmap : AI_COMPANY_TO_DATA_CENTER_PROVIDER "google" = some "Google" := by
    simp [AI_COMPANY_TO_DATA_CENTER_PROVIDER]
  have hpue : PROVIDER_PUE "Google" = some (109/100) := by simp [PROVIDER_PUE]
  have hwue : PROVIDER_WUE_ONSITE "Google" = some (916/1000) := by
    simp [PROVIDER_WUE_ONSITE]
  refine ⟨compute_scalar_scalar scenarioD_args 7 7, ?_⟩
  rw [compute_scalar_scalar scenarioD_args 7 7]
  norm_num [scenarioD_args, dagRun, compute_llm_impacts_dag, optResultsOf, fieldOf,
    gpu_energy, generation_latency, server_energy, request_energy, request_usage_gwp,
    request_usage_adpe, request_usage_pe, request_usage_water,
    server_gpu_embodied_gwp, server_gpu_embodied_adpe, server_gpu_embodied_pe,
    request_embodied_gwp, request_embodied_adpe, request_embodied_pe,
    request_embodied_water, hceil, hmap, hpue, hwue, max_def, Bind.bind, Except.bind,
    Except.map, ValueOrRange.add, ValueOrRange.scale, ValueOrRange.mulc,
    ValueOrRange.divc, ValueOrRange.vmin, ValueOrRange.vmax, ValueOrRange.ltScalar,
    ValueOrRange.isRange,
    GPU_ENERGY_ALPHA, GPU_ENERGY_BETA, GPU_ENERGY_STDEV, GPU_LATENCY_ALPHA,
    GPU_LATENCY_BETA, GPU_LATENCY_STDEV, SERVER_POWER, SERVER_GPUS,
    SERVER_EMBODIED_IMPACT_GWP, SERVER_EMBODIED_IMPACT_ADPE, SERVER_EMBODIED_IMPACT_PE,
    GPU_EMBODIED_IMPACT_GWP, GPU_EMBODIED_IMPACT_ADPE, GPU_EMBODIED_IMPACT_PE,
    HARDWARE_LIFESPAN, BATCHING_SIZE, GPUS_IN_SERVER, WATER_FABRICATING_GPU]

/-- Claim C5, amended: the orchestrator builds exactly one scalar leaf pair
when both parameter-count leaves are scalars — every output field then being
exactly the value that single pass produced, which may itself be an interval
— and exactly two pairs (all-minimums then all-maximums, a scalar leaf
substituted unchanged into both) when either leaf is an interval, with the
orchestrator run equal to the corresponding one or two DAG evaluations. -/
theorem c5_pass_counts :
    (∀ a t : ℚ, paramPasses (.val a) (.val t) = [(a, t)]) ∧
    (∀ a1 a2 t : ℚ, paramPasses (.range a1 a2) (.val t) = [(a1, t), (a2, t)]) ∧
    (∀ a t1 t2 : ℚ, paramPasses (.val a) (.range t1 t2) = [(a, t1), (a, t2)]) ∧
    (∀ a1 a2 t1 t2 : ℚ, paramPasses (.range a1 a2) (.range t1 t2) = [(a1, t1), (a2, t2)]) ∧
    (∀ (args : LlmArgs) (a t : ℚ),
      compute_llm_impacts (.val a) (.val t) args = (dagRun args a t).map some) ∧
    (∀ (args : LlmArgs) (a1 a2 t : ℚ),
      compute_llm_impacts (.range a1 a2) (.val t) args =
        (dagRun args a1 t).bind fun r1 =>
          (dagRun args a2 t).map fun r2 => some (mergeResults r1 r2)) ∧
    (∀ (args : LlmArgs) (a t1 t2 : ℚ),
      compute_llm_impacts (.val a) (.range t1 t2) args =
        (dagRun args a t1).bind fun r1 =>
          (dagRun args a t2).map fun r2 => some (mergeResults r1 r2)) ∧
    (∀ (args : LlmArgs) (a1 a2 t1 t2 : ℚ),
      compute_llm_impacts (.range a1 a2) (.range t1 t2) args =
        (dagRun args a1 t1).bind fun r1 =>
          (dagRun args a2 t2).map fun r2 => some (mergeResults r1 r2)) :=
  ⟨fun _ _ => rfl, fun _ _ _ => rfl, fun _ _ _ => rfl, fun _ _ _ _ => rfl,
    compute_scalar_scalar, compute_range_val, compute_val_range, compute_range_range⟩

/-- Claim C6: for every nonnegative output token count, active parameter
count and stdev, `gpu_energy` returns the interval
`[max(0, tokens × (α × active + β − 1.96σ)), tokens × (α × active + β + 1.96σ)]`
— the ±1.96σ band around the linear per-token model, floored at zero rather
than raising. -/
theorem c6_gpu_energy_band (active tokens alpha beta stdev : ℚ)
    (htokens : 0 ≤ tokens) (hactive : 0 ≤ active) (hstdev : 0 ≤ stdev) :
    gpu_energy active tokens alpha beta stdev =
      .range (max 0 (tokens * (alpha * active + beta - 196 / 100 * stdev)))
        (tokens * (alpha * active + beta + 196 / 100 * stdev)) := rfl

/-- Claim C6, witness: the band evaluated at 7 billion active parameters and
100 tokens with the default calibration constants. -/
theorem c6_witness :
    (0:ℚ) ≤ 100 ∧ (0:ℚ) ≤ 7 ∧ (0:ℚ) ≤ GPU_ENERGY_STDEV ∧
    gpu_energy 7 100 GPU_ENERGY_ALPHA GPU_ENERGY_BETA GPU_ENERGY_STDEV =
      .range (max 0 (100 * (GPU_ENERGY_ALPHA * 7 + GPU_ENERGY_BETA - 196 / 100 * GPU_ENERGY_STDEV)))
        (100 * (GPU_ENERGY_ALPHA * 7 + GPU_ENERGY_BETA + 196 / 100 * GPU_ENERGY_STDEV)) :=
  ⟨by norm_num, by norm_num, by norm_num [GPU_ENERGY_STDEV],
    c6_gpu_energy_band 7 100 GPU_ENERGY_ALPHA GPU_ENERGY_BETA GPU_ENERGY_STDEV
      (by norm_num) (by norm_num) (by norm_num [GPU_ENERGY_STDEV])⟩

/-- Claim C7: `model_required_memory` is `1.2 × total × bits / 8` and
`gpu_required_count` is the ceiling of the memory ratio; in particular
`model_required_memory 70 4 = 42` and, with 80 GB of GPU memory,
`gpu_required_count = ⌈42 / 80⌉ = 1`. -/
theorem c7_memory_and_gpu_count :
    (∀ total bits : ℚ, model_required_memory total bits = 12 / 10 * total * bits / 8) ∧
    (∀ mem gmem : ℚ, gpu_required_count mem gmem = ⌈mem / gmem⌉) ∧
    model_required_memory 70 4 = 42 ∧
    gpu_required_count (model_required_memory 70 4) 80 = 1 := by
  refine ⟨fun _ _ => rfl, fun _ _ => rfl, by norm_num [model_required_memory], ?_⟩
  norm_num [gpu_required_count, model_required_memory, Int.ceil_eq_iff]

/-- Claim C8, counterexample: an unresolvable provider makes the computation
fail with a `KeyError` — the exception raised by the plain dictionary
subscription `ai_company_to_data_center_provider[provider]` — not with an
`UnknownProviderError` or `UnknownOperatorError` (no such error types exist
in the code). -/
theorem c8_counterexample :
    errorNameOf scenarioUnknown = some "KeyError" ∧
    some "KeyError" ≠ some "UnknownProviderError" ∧
    some "KeyError" ≠ some "UnknownOperatorError" := by
  refine ⟨?_, by decide, by decide⟩
  have h : ∀ a t, dagRun unknownProviderArgs a t = .error "KeyError" := fun a t =>
    dagRun_keyerror _ a t
      (Or.inl (by simp [unknownProviderArgs, AI_COMPANY_TO_DATA_CENTER_PROVIDER]))
  rw [scenarioUnknown, compute_keyerror_of_dagRun _ _ _ h]
  rfl

/-- Claim C8, amended: for every provider identifier that is not a key of the
AI-company-to-operator table (or whose operator is missing from the PUE or
WUE table), the computation fails with the `KeyError` of the failed
dictionary lookup and no (partial) impact result is produced. -/
theorem c8_amended_no_result (active total : ValueOrRange) (args : LlmArgs)
    (h : args.ai_company_to_data_center_provider args.provider = none ∨
      (∃ op, args.ai_company_to_data_center_provider args.provider = some op ∧
        (args.provider_pue op = none ∨ args.provider_wue_onsite op = none))) :
    compute_llm_impacts active total args = .error "KeyError" :=
  compute_keyerror_of_dagRun active total args (fun a t => dagRun_keyerror args a t h)

/-- Claim C8, witness: the amended statement at the concrete provider
`notaprovider`, absent from the operator table. -/
theorem c8_amended_witness :
    (unknownProviderArgs.ai_company_to_data_center_provider unknownProviderArgs.provider = none ∨
      (∃ op, unknownProviderArgs.ai_company_to_data_center_provider unknownProviderArgs.provider = some op ∧
        (unknownProviderArgs.provider_pue op = none ∨
          unknownProviderArgs.provider_wue_onsite op = none))) ∧
    compute_llm_impacts (.val 7) (.val 7) unknownProviderArgs = .error "KeyError" :=
  ⟨Or.inl (by simp [unknownProviderArgs, AI_COMPANY_TO_DATA_CENTER_PROVIDER]),
    c8_amended_no_result (.val 7) (.val 7) unknownProviderArgs
      (Or.inl (by simp [unknownProviderArgs, AI_COMPANY_TO_DATA_CENTER_PROVIDER]))⟩

/-- Claim C9: in `find_electricity_mix` the "using world average" warning is
triggered by value equality, not provenance — for a zone other than `WOR`
found in the repository, the warning is emitted if and only if the returned
record's stored water factor is numerically equal to the world row's factor
(so a genuine local factor that coincidentally equals the world average also
triggers it). -/
theorem c9_warning_iff_value_equality (mixes : List ElectricityMix)
    (rows : List CsvRow) (zone : String) (w : ℚ) (mix : ElectricityMix) (b : Bool)
    (hzone : zone ≠ "WOR")
    (hwor : findWorWcf rows = .ok (some w))
    (hfind : find_electricity_mix mixes zone rows = .ok (some mix, b)) :
    b = true ↔ mix.wcf = w := by
  have h2 : findLoop (some w) zone mixes = .ok (some mix, b) := by
    rw [find_electricity_mix, hwor] at hfind
    simpa [Bind.bind, Except.bind] using hfind
  clear hfind hwor
  induction mixes with
  | nil => simp [findLoop] at h2
  | cons head rest ih =>
    by_cases hz : head.zone = zone
    · simp only [findLoop, if_pos hz, Except.ok.injEq, Prod.mk.injEq,
        Option.some.injEq] at h2
      obtain ⟨rfl, rfl⟩ := h2
      simp [hzone]
    · simp only [findLoop, if_neg hz] at h2
      exact ih h2

/-- Claim C9, witness: zone `DEU` whose genuine local factor 5 coincides with
the world value 5, so the lookup warns. -/
theorem c9_witness :
    ("DEU" : String) ≠ "WOR" ∧
    findWorWcf c9rows = .ok (some 5) ∧
    find_electricity_mix [c9mix] "DEU" c9rows = .ok (some c9mix, true) ∧
    (true = true ↔ c9mix.wcf = 5) :=
  ⟨by decide, by decide, by decide,
    c9_warning_iff_value_equality [c9mix] c9rows "DEU" 5 c9mix true
      (by decide) (by decide) (by decide)⟩

/-- Claim C10, counterexample: with no `WOR` row in the CSV,
`find_electricity_mix` for a zone absent from the repository returns
`(none, no warning)` without raising — so "raises an unbound-variable error
when no `WOR` row exists" does not hold unconditionally. -/
theorem c10_counterexample :
    find_electricity_mix c10mixes "ZZZ" c10rows = .ok (none, false) := by decide

/-- Claim C10, amended: `find_electricity_mix` raises the unbound-variable
`NameError` when no `WOR` row exists and the queried zone matches some stored
mix; and `from_csv` raises `NameError` when a non-world row with an empty
`wcf` cell is read before any `WOR` row has been seen. -/
theorem c10_amended :
    (∀ (mixes : List ElectricityMix) (zone : String) (rows : List CsvRow),
      (∀ r ∈ rows, pyUpper r.name ≠ "WOR") →
      (∃ m ∈ mixes, m.zone = zone) →
      find_electricity_mix mixes zone rows = .error "NameError") ∧
    (∀ (pre : List CsvRow) (row : CsvRow) (rest : List CsvRow),
      (∀ r ∈ pre, pyUpper r.name ≠ "WOR") →
      (∀ r ∈ pre, r.wcf ≠ none) →
      pyUpper row.name ≠ "WOR" → row.wcf = none →
      from_csv (pre ++ row :: rest) = .error "NameError") := by
  constructor
  · intro mixes zone rows hnw hmem
    rw [find_electricity_mix, findWorWcf_none rows hnw]
    simpa [Bind.bind, Except.bind] using findLoop_unbound mixes zone hmem
  · intro pre row rest h1 h2 h3 h4
    exact fromCsvGo_unbound pre row rest [] h1 h2 h3 h4

/-- Claim C10, witness: both amended clauses at concrete inputs — a WOR-less
CSV with zone `FRA` present in the repository, and a CSV whose first row has
an empty `wcf` cell. -/
theorem c10_witness :
    ((∀ r ∈ c10rows, pyUpper r.name ≠ "WOR") ∧
      (∃ m ∈ c10mixes, m.zone = "FRA") ∧
      find_electricity_mix c10mixes "FRA" c10rows = .error "NameError") ∧
    ((∀ r ∈ ([] : List CsvRow), pyUpper r.name ≠ "WOR") ∧
      (∀ r ∈ ([] : List CsvRow), r.wcf ≠ none) ∧
      pyUpper c10badRow.name ≠ "WOR" ∧ c10badRow.wcf = none ∧
      from_csv ([] ++ c10badRow :: []) = .error "NameError") :=
  ⟨⟨by decide, by decide,
      c10_amended.1 c10mixes "FRA" c10rows (by decide) (by decide)⟩,
    ⟨by decide, by decide, by decide, by decide,
      c10_amended.2 [] c10badRow [] (by decide) (by decide) (by decide) (by decide)⟩⟩

end EcoLogits
